import Mathlib

/-!
Verification of the Competency Hybrid Search Engine core against its
natural-language specification.

Python strings are modelled as lists of Unicode code points (`PyStr`), so
that Python's string primitives (strip, split, capitalize, comparison)
become executable list functions.  Case mapping is modelled for the ASCII
range, which covers every concrete input appearing in the development.
-/

/-- Python strings, as lists of code points. -/
abbrev PyStr := List Nat

/-- Convert a Lean string literal to its code-point list. -/
def toPyStr (s : String) : PyStr := s.toList.map Char.toNat

/-- Python truthiness of a string: non-empty. -/
def pyTruthy (s : PyStr) : Bool := !s.isEmpty

/-- The characters removed by Python's default str.strip(). -/
def isPySpace (c : Nat) : Bool :=
  c == 32 || c == 9 || c == 10 || c == 13 || c == 11 || c == 12

/-- Python str.lstrip(). -/
def pyLstrip (s : PyStr) : PyStr := s.dropWhile isPySpace

/-- Python str.rstrip(). -/
def pyRstrip (s : PyStr) : PyStr := (s.reverse.dropWhile isPySpace).reverse

/-- Python str.strip(). -/
def pyStrip (s : PyStr) : PyStr := pyRstrip (pyLstrip s)

/-- Scanner for Python str.split() with no arguments; `acc` holds the
current (reversed) run of non-whitespace characters. -/
def pyWordsAux : PyStr → PyStr → List PyStr
  | [], acc => if acc.isEmpty then [] else [acc.reverse]
  | c :: cs, acc =>
    if isPySpace c then
      if acc.isEmpty then pyWordsAux cs [] else acc.reverse :: pyWordsAux cs []
    else pyWordsAux cs (c :: acc)

/-- Python str.split() with no arguments: maximal runs of non-whitespace. -/
def pyWords (s : PyStr) : List PyStr := pyWordsAux s []

/-- Python sep.join(parts). -/
def pyJoin (sep : PyStr) : List PyStr → PyStr
  | [] => []
  | [s] => s
  | s :: rest => s ++ sep ++ pyJoin sep rest

/-- Scanner for Python str.split(sep): `acc` holds the current chunk
reversed.  The fuel argument makes the recursion structural; with fuel at
least the string length and a non-empty separator the scan is exact, since
each step consumes at least one character. -/
def pySplitGo (sep : PyStr) : Nat → PyStr → PyStr → List PyStr
  | 0, s, acc => [acc.reverse ++ s]
  | fuel + 1, s, acc =>
    match s with
    | [] => [acc.reverse]
    | c :: cs =>
      if sep.isPrefixOf (c :: cs) then
        acc.reverse :: pySplitGo sep fuel ((c :: cs).drop sep.length) []
      else pySplitGo sep fuel cs (c :: acc)

/-- Python str.split(sep) for a non-empty separator (an empty separator is a
ValueError in Python and never occurs in the sources). -/
def pySplit (sep : PyStr) (s : PyStr) : List PyStr :=
  match sep with
  | [] => [s]
  | _ :: _ => pySplitGo sep s.length s []

/-- Python `sub in s` contiguous substring test. -/
def pyContains (sub : PyStr) (s : PyStr) : Bool := decide (sub <:+: s)

/-- Python str.replace(old, new), modelled as split-then-join, which agrees
with Python's non-overlapping left-to-right replacement. -/
def pyReplace (old new : PyStr) (s : PyStr) : PyStr :=
  pyJoin new (pySplit old s)

/-- ASCII lower-casing of one code point (Python str.lower per character). -/
def pyLowerCh (c : Nat) : Nat := if 65 ≤ c ∧ c ≤ 90 then c + 32 else c

/-- ASCII upper-casing of one code point (Python str.upper per character). -/
def pyUpperCh (c : Nat) : Nat := if 97 ≤ c ∧ c ≤ 122 then c - 32 else c

/-- Python str.lower(). -/
def pyLower (s : PyStr) : PyStr := s.map pyLowerCh

/-- Python str.capitalize(): first character upper-cased, rest lower-cased. -/
def pyCapitalize : PyStr → PyStr
  | [] => []
  | c :: cs => pyUpperCh c :: cs.map pyLowerCh

/-- ASCII decimal digit test (Python regex \d on the inputs in scope). -/
def pyIsDigit (c : Nat) : Bool := 48 ≤ c && c ≤ 57

/-- Python sorted(set(l)): the distinct elements in ascending order. -/
def pySortedSet (l : List PyStr) : List PyStr :=
  List.insertionSort (· ≤ ·) l.dedup

/-! ## Domain data model (src/search_engine/domain/types, src/data_importer/schemas) -/

/-- Canonical competency record.  Enumerated fields (lang, type, provider)
are carried as their string values (the pydantic models set
use_enum_values).  `code` is optional here because the ESCO mapper may
leave it unset when no concept URI is available. -/
structure Competency where
  code : Option PyStr
  lang : PyStr
  type : PyStr
  provider : PyStr
  title : PyStr
  url : Option PyStr
  category : Option PyStr
  description : Option PyStr
  keywords : Option (List PyStr)
  indexed_text : Option PyStr
deriving DecidableEq, Repr

/-- Dense embedding vector; the float entries are abstracted as integers
(their numeric values never influence control flow). -/
structure DenseVector where
  values : List Int
deriving DecidableEq, Repr

/-- Sparse embedding vector: active indices and their values. -/
structure SparseVector where
  indices : List Nat
  values : List Int
deriving DecidableEq, Repr

/-- Named vector spaces of the store. -/
inductive VectorName where
  | dense
  | sparse
deriving DecidableEq, Repr

/-- A stored entity: identifier, competency, optional vectors. -/
structure Entity where
  identifier : Nat
  competency : Competency
  dense_vector : Option DenseVector
  sparse_vector : Option SparseVector
deriving DecidableEq, Repr

/-- Operators of the domain filter DSL. -/
inductive DomainFilterOperator where
  | equal
  | not_equal
  | greater_than
  | greater_than_or_equal
  | less_than
  | less_than_or_equal
  | in_op
  | not_in
deriving DecidableEq, Repr

/-- Values carried by a domain filter (Python `Any`, restricted to the
shapes the adapters actually receive). -/
inductive FilterValue where
  | int (i : Int)
  | str (s : PyStr)
  | intList (l : List Int)
deriving DecidableEq, Repr

/-- A single domain filter condition. -/
structure DomainFilter where
  field : PyStr
  operator : DomainFilterOperator
  value : FilterValue
deriving DecidableEq, Repr

/-- A scored search hit. -/
structure SearchResult where
  entity : Entity
  score : Int
deriving DecidableEq, Repr

/-- Search types accepted by the service.  The Python parameter is a
StrEnum compared by string value, so the service-level argument is carried
as a string; unrecognized strings exercise the final ValidationError
branch. -/
def searchTypeSemantic : PyStr := toPyStr "semantic"

/-- The sparse search type string. -/
def searchTypeSparse : PyStr := toPyStr "sparse"

/-- The hybrid search type string. -/
def searchTypeHybrid : PyStr := toPyStr "hybrid"

/-- A vector argument to the single-vector repository search (the Python
method receives either a dense or a sparse vector). -/
inductive AnyVector where
  | dense (v : DenseVector)
  | sparse (v : SparseVector)
deriving DecidableEq, Repr

/-! ## Entity service (src/search_engine/domain/services/entity_service.py)

The service's collaborators (two embedding services and the repository)
are modelled as an explicit environment of response functions, and every
service operation additionally returns the ordered trace of collaborator
calls it made, so that claims about which capabilities are invoked become
statements about the trace. -/

/-- One collaborator call made by the entity service. -/
inductive SvcCall where
  | encodeDense (text : PyStr)
  | encodeSparse (text : PyStr)
  | repoCreate (competency : Competency) (dense : DenseVector) (sparse : SparseVector)
  | repoGet (identifier : Nat)
  | repoUpdate (identifier : Nat) (competency : Competency)
      (dense : Option DenseVector) (sparse : Option SparseVector)
  | repoDelete (identifier : Nat)
  | repoSearchVector (vector : AnyVector) (filters : List DomainFilter)
      (top : Nat) (vector_name : VectorName)
  | repoSearchHybrid (dense : DenseVector) (sparse : SparseVector)
      (filters : List DomainFilter) (top : Nat)
deriving DecidableEq, Repr

/-- Outcome of a service operation: a value or a raised domain error. -/
inductive SvcResult (α : Type) where
  | ok (a : α)
  | validationError (msg : PyStr)
  | embeddingError (msg : PyStr)
  | entityNotFoundError (msg : PyStr)
deriving DecidableEq, Repr

/-- Collaborator environment: encoder outcomes (Except carries the raised
exception's message) and repository responses. -/
structure SvcEnv where
  encodeDense : PyStr → Except PyStr DenseVector
  encodeSparse : PyStr → Except PyStr SparseVector
  repoCreate : Competency → DenseVector → SparseVector → Entity
  repoGet : Nat → Option Entity
  repoUpdate : Nat → Competency → Option DenseVector → Option SparseVector → Entity
  repoSearchVector : AnyVector → List DomainFilter → Nat → VectorName → List SearchResult
  repoSearchHybrid : DenseVector → SparseVector → List DomainFilter → Nat → List SearchResult

/-- EntityService.create_entity.  `text.strip() if text else None` followed
by `if not text: raise ValidationError`. -/
def create_entity (env : SvcEnv) (competency : Competency) (text : Option PyStr) :
    SvcResult Entity × List SvcCall :=
  let text' : Option PyStr :=
    match text with
    | some t => if pyTruthy t then some (pyStrip t) else none
    | none => none
  match text' with
  | none => (.validationError (toPyStr "Text cannot be empty."), [])
  | some t =>
    if !pyTruthy t then (.validationError (toPyStr "Text cannot be empty."), [])
    else
      match env.encodeDense t with
      | .error e =>
        (.embeddingError (toPyStr "Encoding error: " ++ e), [.encodeDense t])
      | .ok dv =>
        match env.encodeSparse t with
        | .error e =>
          (.embeddingError (toPyStr "Encoding error: " ++ e),
            [.encodeDense t, .encodeSparse t])
        | .ok sv =>
          (.ok (env.repoCreate competency dv sv),
            [.encodeDense t, .encodeSparse t, .repoCreate competency dv sv])

/-- EntityService.get_entity. -/
def get_entity (env : SvcEnv) (identifier : Nat) : SvcResult Entity × List SvcCall :=
  match env.repoGet identifier with
  | none => (.entityNotFoundError (toPyStr "Entity not found"), [.repoGet identifier])
  | some e => (.ok e, [.repoGet identifier])

/-- EntityService.update_entity. -/
def update_entity (env : SvcEnv) (identifier : Nat) (competency : Competency)
    (text : Option PyStr) : SvcResult Entity × List SvcCall :=
  match env.repoGet identifier with
  | none => (.entityNotFoundError (toPyStr "Entity not found"), [.repoGet identifier])
  | some entity =>
    -- `if text is None or entity.competency.indexed_text == text`: reuse the
    -- stored vectors; otherwise strip, validate and re-encode.
    match text with
    | none =>
      (.ok (env.repoUpdate identifier competency entity.dense_vector entity.sparse_vector),
        [.repoGet identifier,
          .repoUpdate identifier competency entity.dense_vector entity.sparse_vector])
    | some t0 =>
      if entity.competency.indexed_text = some t0 then
        (.ok (env.repoUpdate identifier competency entity.dense_vector entity.sparse_vector),
          [.repoGet identifier,
            .repoUpdate identifier competency entity.dense_vector entity.sparse_vector])
      else
        let t := pyStrip t0
        if !pyTruthy t then
          (.validationError (toPyStr "Text cannot be empty."), [.repoGet identifier])
        else
          match env.encodeDense t with
          | .error e =>
            (.embeddingError (toPyStr "Encoding error: " ++ e),
              [.repoGet identifier, .encodeDense t])
          | .ok dv =>
            match env.encodeSparse t with
            | .error e =>
              (.embeddingError (toPyStr "Encoding error: " ++ e),
                [.repoGet identifier, .encodeDense t, .encodeSparse t])
            | .ok sv =>
              (.ok (env.repoUpdate identifier competency (some dv) (some sv)),
                [.repoGet identifier, .encodeDense t, .encodeSparse t,
                  .repoUpdate identifier competency (some dv) (some sv)])

/-- EntityService.search_by_text_and_filters_with_type. -/
def search_by_text_and_filters_with_type (env : SvcEnv) (text : PyStr)
    (filters : List DomainFilter) (top : Nat) (search_type : PyStr) :
    SvcResult (List SearchResult) × List SvcCall :=
  let t := pyStrip text
  if !pyTruthy t then
    (.validationError (toPyStr "Searched text cannot be empty."), [])
  else if search_type = searchTypeSemantic then
    match env.encodeDense t with
    | .error e =>
      (.embeddingError (toPyStr "Dense encoding error: " ++ e), [.encodeDense t])
    | .ok dv =>
      (.ok (env.repoSearchVector (.dense dv) filters top .dense),
        [.encodeDense t, .repoSearchVector (.dense dv) filters top .dense])
  else if search_type = searchTypeSparse then
    match env.encodeSparse t with
    | .error e =>
      (.embeddingError (toPyStr "Sparse encoding error: " ++ e), [.encodeSparse t])
    | .ok sv =>
      (.ok (env.repoSearchVector (.sparse sv) filters top .sparse),
        [.encodeSparse t, .repoSearchVector (.sparse sv) filters top .sparse])
  else if search_type = searchTypeHybrid then
    match env.encodeDense t with
    | .error e =>
      (.embeddingError (toPyStr "Encoding error: " ++ e), [.encodeDense t])
    | .ok dv =>
      match env.encodeSparse t with
      | .error e =>
        (.embeddingError (toPyStr "Encoding error: " ++ e),
          [.encodeDense t, .encodeSparse t])
      | .ok sv =>
        (.ok (env.repoSearchHybrid dv sv filters top),
          [.encodeDense t, .encodeSparse t, .repoSearchHybrid dv sv filters top])
  else
    (.validationError (toPyStr "Unsupported search type"), [])

/-! ## Qdrant filter translation
(src/search_engine/adapters/infrastructure/qdrant/repository.py) -/

/-- A Qdrant field condition (match or range, by operator). -/
inductive FieldCondition where
  | matchValue (key : PyStr) (value : FilterValue)
  | matchAny (key : PyStr) (value : FilterValue)
  | rangeGt (key : PyStr) (value : FilterValue)
  | rangeGte (key : PyStr) (value : FilterValue)
  | rangeLt (key : PyStr) (value : FilterValue)
  | rangeLte (key : PyStr) (value : FilterValue)
deriving DecidableEq, Repr

/-- A Qdrant Filter: optional must and must_not condition lists. -/
structure QdrantFilter where
  must : Option (List FieldCondition)
  must_not : Option (List FieldCondition)
deriving DecidableEq, Repr

/-- QdrantRepository._create_field_condition. -/
def createFieldCondition (f : DomainFilter) : FieldCondition :=
  match f.operator with
  | .equal => .matchValue f.field f.value
  | .not_equal => .matchValue f.field f.value
  | .in_op => .matchAny f.field f.value
  | .not_in => .matchAny f.field f.value
  | .greater_than => .rangeGt f.field f.value
  | .greater_than_or_equal => .rangeGte f.field f.value
  | .less_than => .rangeLt f.field f.value
  | .less_than_or_equal => .rangeLte f.field f.value

/-- Does the operator route to the must_not clause? -/
def isNegativeOperator (op : DomainFilterOperator) : Bool :=
  match op with
  | .not_equal => true
  | .not_in => true
  | _ => false

/-- The condition-collecting loop of _build_search_filters: every filter is
appended, in order, to the must or must_not list by its operator. -/
def collectConditions : List DomainFilter → List FieldCondition × List FieldCondition
  | [] => ([], [])
  | f :: fs =>
    let rest := collectConditions fs
    if isNegativeOperator f.operator then
      (rest.1, createFieldCondition f :: rest.2)
    else
      (createFieldCondition f :: rest.1, rest.2)

/-- QdrantRepository._build_search_filters. -/
def buildSearchFilters (filters : List DomainFilter) : QdrantFilter :=
  if filters.isEmpty then { must := none, must_not := none }
  else
    let conds := collectConditions filters
    { must := if conds.1.isEmpty then none else some conds.1
      must_not := if conds.2.isEmpty then none else some conds.2 }

/-! ## Indexing strategies (src/data_importer/indexing_strategies) -/

/-- The recognized indexing field names (keys of the extractor table of
FieldDuplicationStrategy, and the members of the IndexingField enum). -/
def indexingFieldNames : List PyStr :=
  [toPyStr "title", toPyStr "description", toPyStr "category", toPyStr "keywords"]

/-- FieldDuplicationStrategy.__init__: stores the fields after checking
every one has an extractor; unknown fields raise ValueError. -/
def fieldDuplicationInit (fields : List PyStr) : Except PyStr (List PyStr) :=
  if (fields.filter (fun f => !indexingFieldNames.contains f)).isEmpty then
    .ok fields
  else
    .error (toPyStr "No extractor defined for field(s)")

/-- FieldCombinationStrategy.__init__: stores the fields with no check. -/
def fieldCombinationInit (fields : List PyStr) : Except PyStr (List PyStr) :=
  .ok fields

/-- FieldDuplicationStrategy's per-field extractor table. -/
def fieldDuplicationExtract (c : Competency) (field : PyStr) : List PyStr :=
  if field = toPyStr "title" then [c.title]
  else if field = toPyStr "description" then
    match c.description with
    | some d => if pyTruthy d then [d] else []
    | none => []
  else if field = toPyStr "category" then
    match c.category with
    | some d => if pyTruthy d then [d] else []
    | none => []
  else if field = toPyStr "keywords" then
    match c.keywords with
    | some ks => if ks.isEmpty then [] else ks
    | none => []
  else []

/-- FieldDuplicationStrategy.expand_competency: one copy per non-blank
extracted value, with indexed_text replaced by that value. -/
def fieldDuplicationExpand (fields : List PyStr) (c : Competency) : List Competency :=
  fields.flatMap (fun field =>
    (fieldDuplicationExtract c field).filterMap (fun value =>
      if pyTruthy (pyStrip value) then
        some { c with indexed_text := some value }
      else none))

/-- The attribute names of the data-importer Competency model, i.e. the
names getattr can resolve on a competency. -/
def competencyAttributeNames : List PyStr :=
  [toPyStr "code", toPyStr "lang", toPyStr "type", toPyStr "provider",
    toPyStr "title", toPyStr "url", toPyStr "category", toPyStr "description",
    toPyStr "keywords", toPyStr "indexed_text"]

/-- The per-field segment contributions of
FieldCombinationStrategy.expand_competency.  getattr(competency, field, "")
resolves every Competency attribute, so any attribute name — recognized by
the IndexingField enum or not — can contribute a segment; only a name that
is no attribute falls back to the empty default.  A None attribute value
and the empty default behave alike (both falsy, not lists).  Note the
source has no else between the trailing-period branch and the append: a
scalar value ending in a period is appended twice, once stripped and once
verbatim. -/
def fieldCombinationParts (c : Competency) (field : PyStr) : List PyStr :=
  if field = toPyStr "keywords" then
    match c.keywords with
    | some ks => [pyJoin (toPyStr ", ") (ks.filter pyTruthy)]
    | none => []
  else
    let value : PyStr :=
      if field = toPyStr "code" then c.code.getD []
      else if field = toPyStr "lang" then c.lang
      else if field = toPyStr "type" then c.type
      else if field = toPyStr "provider" then c.provider
      else if field = toPyStr "title" then c.title
      else if field = toPyStr "url" then c.url.getD []
      else if field = toPyStr "category" then c.category.getD []
      else if field = toPyStr "description" then c.description.getD []
      else if field = toPyStr "indexed_text" then c.indexed_text.getD []
      else []
    if pyTruthy value then
      if value.getLast? = some 46 then [value.dropLast, value] else [value]
    else []

/-- FieldCombinationStrategy.expand_competency: a single output whose
indexed_text joins the collected parts with ". " and strips the result. -/
def fieldCombinationExpand (fields : List PyStr) (c : Competency) : List Competency :=
  let parts := fields.flatMap (fieldCombinationParts c)
  [{ c with indexed_text := some (pyStrip (pyJoin (toPyStr ". ") parts)) }]

/-! ## Provider mappers (src/data_importer/mappers) -/

/-- Python `a or b` for an optional string a: b when a is None or empty. -/
def pyOr (a : Option PyStr) (b : PyStr) : PyStr :=
  match a with
  | some s => if pyTruthy s then s else b
  | none => b

/-- Python truthiness of an optional string: present and non-empty. -/
def optTruthy (o : Option PyStr) : Bool :=
  match o with
  | some s => pyTruthy s
  | none => false

/-- Decimal digits of a natural number, as a PyStr (Python str(int)). -/
def pyStrOfNat (n : Nat) : PyStr := toPyStr (toString n)

/-- Raw ROME record (RomeMapper's pydantic fields). -/
structure RomeMapper where
  provider : PyStr
  competency_type : PyStr
  lang : PyStr
  code : PyStr
  intitule : PyStr
  category : PyStr
  description : PyStr
  keywords : List PyStr
  indexed_text : Option PyStr
deriving DecidableEq, Repr

/-- RomeMapper.clean_rome_appelation.  The source strips every part of the
split and then requires exactly two parts; stripping inside the two-part
branch is equivalent since the map preserves the number of parts. -/
def cleanRomeAppelation (appelation : PyStr) : List PyStr :=
  if !pyContains (toPyStr "/") appelation then [appelation]
  else
    match pySplit (toPyStr "/") appelation with
    | [g0, d0] =>
      let gauche := pyStrip g0
      let droite := pyStrip d0
      let mots_gauche := pyWords gauche
      let mots_droite := pyWords droite
      if mots_gauche.length > mots_droite.length then
        let nb_mots := mots_gauche.length - mots_droite.length
        let prefixe := pyJoin (toPyStr " ") (mots_gauche.take nb_mots)
        [pyStrip gauche, pyStrip (prefixe ++ toPyStr " " ++ droite)]
      else if mots_droite.length > mots_gauche.length then
        let nb_mots := mots_droite.length - mots_gauche.length
        let suffixe :=
          pyJoin (toPyStr " ") (mots_droite.drop (mots_droite.length - nb_mots))
        [pyStrip (gauche ++ toPyStr " " ++ suffixe), pyStrip droite]
      else
        [pyStrip gauche, pyStrip droite]
    | _ => [appelation]

/-- RomeMapper.to_competency. -/
def romeToCompetency (m : RomeMapper) : Competency :=
  let cleaned_keywords := pySortedSet (m.keywords.flatMap cleanRomeAppelation)
  { code := some m.code
    lang := m.lang
    type := m.competency_type
    provider := m.provider
    title := m.intitule
    url := some
      (toPyStr "https://candidat.pole-emploi.fr/metierscope/fiche-metier/" ++ m.code)
    category := some m.category
    description := some m.description
    keywords := some cleaned_keywords
    indexed_text := some (pyOr m.indexed_text m.intitule) }

/-- Raw ESCO record (EscoMapper's pydantic fields). -/
structure EscoMapper where
  provider : PyStr
  competency_type : PyStr
  lang : PyStr
  preferred_label : PyStr
  description : PyStr
  concept_uri : PyStr
  alt_labels : Option PyStr
  hidden_labels : Option PyStr
  code : Option PyStr
  category : Option PyStr
  broader_concept_pt : Option PyStr
  indexed_text : Option PyStr
deriving DecidableEq, Repr

/-- EscoMapper.clean_esco_appelation.  As in the ROME cleaner, the strip of
each part is applied inside the exactly-two-parts branch. -/
def cleanEscoAppelation (appelation : PyStr) : List PyStr :=
  if !pyContains (toPyStr "/") appelation then [appelation]
  else
    match pySplit (toPyStr "/") appelation with
    | [p0, p1] => [pyStrip p0, pyStrip p1]
    | _ => [appelation]

/-- The cleaned ESCO title: preferred label stripped then capitalized. -/
def escoCleanedTitle (m : EscoMapper) : PyStr := pyCapitalize (pyStrip m.preferred_label)

/-- ESCO code fill-in: defaults to the stripped concept URI when unset. -/
def escoCode (m : EscoMapper) : Option PyStr :=
  if !optTruthy m.code && pyTruthy m.concept_uri then some (pyStrip m.concept_uri)
  else m.code

/-- ESCO category fill-in from broader_concept_pt. -/
def escoCategory (m : EscoMapper) : Option PyStr :=
  if !optTruthy m.category && optTruthy m.broader_concept_pt then
    some (pyReplace (toPyStr " | ") (toPyStr ", ")
      (pyStrip (m.broader_concept_pt.getD [])))
  else m.category

/-- ESCO keywords gathered from alt_labels. -/
def escoAltKeywords (m : EscoMapper) : List PyStr :=
  match m.alt_labels with
  | none => []
  | some al =>
    if !pyTruthy al then []
    else
      let alt_label_list :=
        if pyContains (toPyStr " | ") al then pySplit (toPyStr " | ") al
        else if pyContains (toPyStr "\n") al then pySplit (toPyStr "\n") al
        else [al]
      alt_label_list.filterMap (fun label =>
        if pyTruthy (pyStrip label) then some (pyStrip label) else none)

/-- ESCO keywords gathered from hidden_labels. -/
def escoHiddenKeywords (m : EscoMapper) : List PyStr :=
  match m.hidden_labels with
  | none => []
  | some hl =>
    if !pyTruthy hl then []
    else
      (pySplit (toPyStr "\n") hl).filterMap (fun label =>
        if pyTruthy (pyStrip label) then some (pyStrip label) else none)

/-- The keyword list accumulated before the title-split rule applies. -/
def escoRawKeywords (m : EscoMapper) : List PyStr :=
  escoAltKeywords m ++ escoHiddenKeywords m

/-- Final ESCO keyword normalization: capitalized set, sorted. -/
def escoFinalKeywords (kws : List PyStr) : List PyStr :=
  pySortedSet ((kws.filter (fun k => pyTruthy (pyStrip k))).map pyCapitalize)

/-- EscoMapper.to_competency. -/
def escoToCompetency (m : EscoMapper) : Competency :=
  let cleaned_title := escoCleanedTitle m
  let cleaned_appelations := cleanEscoAppelation cleaned_title
  let kws :=
    if cleaned_appelations.length > 1 then escoRawKeywords m ++ cleaned_appelations
    else escoRawKeywords m
  { code := escoCode m
    lang := m.lang
    type := m.competency_type
    provider := m.provider
    title := cleaned_title
    url := some m.concept_uri
    category := escoCategory m
    description := some m.description
    keywords := some (escoFinalKeywords kws)
    indexed_text := some (pyOr m.indexed_text cleaned_title) }

/-- Raw FORMA record (FormaMapper's pydantic fields). -/
structure FormaMapper where
  provider : PyStr
  competency_type : PyStr
  lang : PyStr
  code : Nat
  title : PyStr
  category : PyStr
  NSF : Option PyStr
  semantic_field : Option PyStr
  synonym : Option PyStr
  synonym_job : Option PyStr
  specific_terms : Option PyStr
  associated_terms : Option PyStr
  ROME : Option PyStr
  explication_note : Option PyStr
  application_note : Option PyStr
  indexed_text : Option PyStr
deriving DecidableEq, Repr

/-- FormaMapper.remove_code_from_str: drop the first code_length+1 chars. -/
def removeCodeFromStr (text : PyStr) (code_length_to_remove : Nat) : PyStr :=
  text.drop (code_length_to_remove + 1)

/-- FormaMapper.to_competency. -/
def formaToCompetency (m : FormaMapper) : Competency :=
  let cleaned_title := pyCapitalize m.title
  let cleaned_category :=
    if pyTruthy m.category then some (pyCapitalize (removeCodeFromStr m.category 5))
    else none
  let cleaned_nsf :=
    if optTruthy m.NSF then some (removeCodeFromStr (m.NSF.getD []) 3) else none
  let cleaned_semantic_field :=
    if optTruthy m.semantic_field then
      [pyCapitalize (removeCodeFromStr (m.semantic_field.getD []) 3)]
    else []
  let cleaned_synonym :=
    if optTruthy m.synonym then
      (pySplit (toPyStr "$") (m.synonym.getD [])).map
        (fun s => pyCapitalize (pyStrip s))
    else []
  let cleaned_synonym_job :=
    if optTruthy m.synonym_job then
      (pySplit (toPyStr "$") (m.synonym_job.getD [])).map
        (fun s => pyCapitalize (pyStrip s))
    else []
  let cleaned_specific_terms :=
    if optTruthy m.specific_terms then
      (pySplit (toPyStr "$") (m.specific_terms.getD [])).filterMap (fun term =>
        if pyTruthy (pyStrip term) then
          some (pyCapitalize (removeCodeFromStr (pyStrip term) 5))
        else none)
    else []
  let cleaned_associated_terms :=
    if optTruthy m.associated_terms then
      (pySplit (toPyStr "$") (m.associated_terms.getD [])).filterMap (fun term =>
        if pyTruthy (pyStrip term) then
          some (pyCapitalize (removeCodeFromStr (pyStrip term) 5))
        else none)
    else []
  let cleaned_rome :=
    if optTruthy m.ROME then
      (pySplit (toPyStr "$") (m.ROME.getD [])).filterMap (fun term =>
        if pyTruthy (pyStrip term) then some (removeCodeFromStr (pyStrip term) 5)
        else none)
    else []
  let description_parts :=
    (if optTruthy cleaned_nsf then [cleaned_nsf.getD []] else []) ++
    (if optTruthy m.explication_note then [m.explication_note.getD []] else []) ++
    (if optTruthy m.application_note then [m.application_note.getD []] else [])
  let cleaned_description := pyJoin (toPyStr ". ") (description_parts.filter pyTruthy)
  let cleaned_keywords :=
    ((pySortedSet
        (cleaned_semantic_field ++ cleaned_synonym ++ cleaned_synonym_job ++
          cleaned_specific_terms ++ cleaned_associated_terms ++ cleaned_rome)).filter
      pyTruthy).map pyCapitalize
  { code := some (pyStrOfNat m.code)
    lang := m.lang
    type := m.competency_type
    provider := m.provider
    title := cleaned_title
    url := some
      (toPyStr "https://formacode.centre-inffo.fr/spip.php?page=thesaurus&fcd_code=" ++
        pyStrOfNat m.code)
    category := cleaned_category
    description := some cleaned_description
    keywords := some cleaned_keywords
    indexed_text := some (pyOr m.indexed_text cleaned_title) }

/-- Raw FORMA version-14 record (Forma14Mapper's pydantic fields). -/
structure Forma14Mapper where
  provider : PyStr
  competency_type : PyStr
  lang : PyStr
  code : Nat
  title : PyStr
  category : PyStr
  semantic_field : PyStr
  synonym : Option PyStr
  synonym_job : Option PyStr
  specific_terms : Option PyStr
  associated_terms : Option PyStr
  application_note : Option PyStr
  explication_note : Option PyStr
  indexed_text : Option PyStr
deriving DecidableEq, Repr

/-- Forma14Mapper.remove_code_from_str_start: when the string starts with
code_length digits followed by a space, drop through the first space
(which, digits not being spaces, sits right after the code). -/
def removeCodeFromStrStart (text : PyStr) (code_length_to_remove : Nat) : PyStr :=
  if code_length_to_remove ≤ text.length &&
      (text.take code_length_to_remove).all pyIsDigit &&
      (text.drop code_length_to_remove).head? = some 32 then
    (text.dropWhile (fun c => c != 32)).drop 1
  else text

/-- Forma14Mapper.remove_code_from_str_end: when the string ends with
" - " followed by code_length digits, keep the part before that last
" - " occurrence (the digits contain no further " - "). -/
def removeCodeFromStrEnd (text : PyStr) (code_length_to_remove : Nat) : PyStr :=
  let tail := text.drop (text.length - (code_length_to_remove + 3))
  if code_length_to_remove + 3 ≤ text.length &&
      tail.take 3 = toPyStr " - " && (tail.drop 3).all pyIsDigit then
    text.take (text.length - (code_length_to_remove + 3))
  else text

/-- Forma14Mapper.to_competency. -/
def forma14ToCompetency (m : Forma14Mapper) : Competency :=
  let cleaned_category := removeCodeFromStrEnd m.category 5
  let cleaned_semantic_field := pyCapitalize (removeCodeFromStrStart m.semantic_field 3)
  let cleaned_synonym :=
    if optTruthy m.synonym then
      (pySplit (toPyStr "###") (m.synonym.getD [])).map
        (fun s => pyCapitalize (pyStrip s))
    else []
  let cleaned_synonym_job :=
    if optTruthy m.synonym_job then
      (pySplit (toPyStr "###") (m.synonym_job.getD [])).map
        (fun s => pyCapitalize (pyStrip s))
    else []
  let cleaned_specific_terms :=
    if optTruthy m.specific_terms then
      (pySplit (toPyStr "###") (m.specific_terms.getD [])).filterMap (fun term =>
        if pyTruthy (pyStrip term) then some (removeCodeFromStrEnd (pyStrip term) 5)
        else none)
    else []
  let cleaned_associated_terms :=
    if optTruthy m.associated_terms then
      (pySplit (toPyStr "$") (m.associated_terms.getD [])).filterMap (fun term =>
        if pyTruthy (pyStrip term) then some (removeCodeFromStrEnd (pyStrip term) 5)
        else none)
    else []
  let cleaned_description :=
    pyStrip ((m.explication_note.getD []) ++ (m.application_note.getD []))
  let cleaned_keywords :=
    (pySortedSet
        (cleaned_semantic_field ::
          (cleaned_synonym ++ cleaned_synonym_job ++ cleaned_specific_terms ++
            cleaned_associated_terms))).filter
      (fun kw => pyTruthy (pyStrip kw))
  { code := some (pyStrOfNat m.code)
    lang := m.lang
    type := m.competency_type
    provider := m.provider
    title := m.title
    url := some
      (toPyStr
        "https://centreinffo.mondeca.com/KB/index#Concept:uri=https://centre-inffo.fr/descripteur_formacode/" ++
        pyStrOfNat m.code ++ toPyStr ";tab=props;")
    category := some cleaned_category
    description := some cleaned_description
    keywords := some cleaned_keywords
    indexed_text := some (pyOr m.indexed_text m.title) }

/-! ## Claim-side definitions and concrete fixtures -/

/-- Modelled from the claim's wording (C7, as amended): the ROME appellation
splitter described by the specification.  Both halves are the trimmed split
parts; the item that receives a joined shared prefix or suffix is stripped
of surrounding whitespace, the other items are used as they stand. -/
def romeSplitClaim (appelation : PyStr) : List PyStr :=
  if !pyContains (toPyStr "/") appelation then [appelation]
  else
    match pySplit (toPyStr "/") appelation with
    | [g0, d0] =>
      let left := pyStrip g0
      let right := pyStrip d0
      let words_left := pyWords left
      let words_right := pyWords right
      if words_left.length > words_right.length then
        let pre := pyJoin (toPyStr " ")
          (words_left.take (words_left.length - words_right.length))
        [left, pyStrip (pre ++ toPyStr " " ++ right)]
      else if words_right.length > words_left.length then
        let suf := pyJoin (toPyStr " ")
          (words_right.drop (words_right.length - (words_right.length - words_left.length)))
        [pyStrip (left ++ toPyStr " " ++ suf), right]
      else
        [left, right]
    | _ => [appelation]

/-- A minimal competency fixture. -/
def demoCompetency : Competency :=
  { code := some (toPyStr "C1")
    lang := toPyStr "en"
    type := toPyStr "occupation"
    provider := toPyStr "esco"
    title := toPyStr "Baker"
    url := none
    category := none
    description := none
    keywords := none
    indexed_text := some (toPyStr "stored text") }

/-- Fixture for the field-combination period bug: a scalar field whose value
ends with a period. -/
def demoCombCompetency : Competency :=
  { demoCompetency with description := some (toPyStr "Hello.") }

/-- A stored entity fixture with both vectors present. -/
def demoEntity : Entity :=
  { identifier := 7
    competency := demoCompetency
    dense_vector := some { values := [5] }
    sparse_vector := some { indices := [2], values := [6] } }

/-- A collaborator environment whose encoders always succeed and whose
repository holds demoEntity under identifier 7. -/
def demoEnv : SvcEnv :=
  { encodeDense := fun _ => .ok { values := [1] }
    encodeSparse := fun _ => .ok { indices := [0], values := [2] }
    repoCreate := fun c dv sv =>
      { identifier := 42, competency := c, dense_vector := some dv, sparse_vector := some sv }
    repoGet := fun i => if i = 7 then some demoEntity else none
    repoUpdate := fun i c dv sv =>
      { identifier := i, competency := c, dense_vector := dv, sparse_vector := sv }
    repoSearchVector := fun _ _ _ _ => []
    repoSearchHybrid := fun _ _ _ _ => [] }

/-- ROME fixture whose keyword list holds a case-insensitive duplicate. -/
def demoRome : RomeMapper :=
  { provider := toPyStr "rome"
    competency_type := toPyStr "occupation"
    lang := toPyStr "fr"
    code := toPyStr "A1101"
    intitule := toPyStr "Conducteur"
    category := toPyStr "Agriculture"
    description := toPyStr "desc"
    keywords := [toPyStr "Zebra", toPyStr "zebra"]
    indexed_text := none }

/-- ESCO fixture whose raw title has an upper-case second half. -/
def demoEsco : EscoMapper :=
  { provider := toPyStr "esco"
    competency_type := toPyStr "occupation"
    lang := toPyStr "en"
    preferred_label := toPyStr "Baker / PASTRY CHEF"
    description := toPyStr "desc"
    concept_uri := toPyStr "http://data.europa.eu/esco/occupation/1"
    alt_labels := none
    hidden_labels := none
    code := none
    category := none
    broader_concept_pt := none
    indexed_text := none }

/-- ESCO fixture matching the specification's own split example. -/
def demoEscoBaker : EscoMapper :=
  { demoEsco with preferred_label := toPyStr "Baker / Pastry chef" }

/-- FORMA fixture whose raw ROME-field terms expose the capitalize-after-sort
order inversion. -/
def demoForma : FormaMapper :=
  { provider := toPyStr "forma"
    competency_type := toPyStr "skill"
    lang := toPyStr "fr"
    code := 110
    title := toPyStr "informatique"
    category := toPyStr "12345 numerique"
    NSF := none
    semantic_field := none
    synonym := none
    synonym_job := none
    specific_terms := none
    associated_terms := none
    ROME := some (toPyStr "12345 AZ$12345 Ab")
    explication_note := none
    application_note := none
    indexed_text := none }

/-- FORMA version-14 fixture. -/
def demoForma14 : Forma14Mapper :=
  { provider := toPyStr "forma14"
    competency_type := toPyStr "skill"
    lang := toPyStr "fr"
    code := 200
    title := toPyStr "Informatique"
    category := toPyStr "Numerique - 12345"
    semantic_field := toPyStr "110 informatique"
    synonym := some (toPyStr "Coding")
    synonym_job := none
    specific_terms := none
    associated_terms := none
    application_note := none
    explication_note := none
    indexed_text := none }

/-- The specification's filter-partition example:
[(a, EQ, 1), (b, NEQ, 2), (c, IN, [3,4])]. -/
def demoFilters : List DomainFilter :=
  [ { field := toPyStr "a", operator := .equal, value := .int 1 }
  , { field := toPyStr "b", operator := .not_equal, value := .int 2 }
  , { field := toPyStr "c", operator := .in_op, value := .intList [3, 4] } ]

/-! # Helper lemmas -/

theorem pyLstrip_idem (s : PyStr) : pyLstrip (pyLstrip s) = pyLstrip s :=
  List.dropWhile_idempotent _ _

theorem pyRstrip_eq_rdropWhile (s : PyStr) : pyRstrip s = s.rdropWhile isPySpace := rfl

theorem pyRstrip_idem (s : PyStr) : pyRstrip (pyRstrip s) = pyRstrip s := by
  simp only [pyRstrip_eq_rdropWhile]
  exact List.rdropWhile_idempotent _ _

theorem pyLstrip_pyStrip (s : PyStr) : pyLstrip (pyStrip s) = pyStrip s := by
  show pyLstrip (pyRstrip (pyLstrip s)) = pyRstrip (pyLstrip s)
  rcases hr : pyRstrip (pyLstrip s) with _ | ⟨c, t⟩
  · rfl
  · have hpre : pyRstrip (pyLstrip s) <+: pyLstrip s := by
      rw [pyRstrip_eq_rdropWhile]
      exact List.rdropWhile_prefix _ _
    rw [hr] at hpre
    obtain ⟨rest, hrest⟩ := hpre
    have hdw : List.dropWhile isPySpace s = c :: (t ++ rest) := by
      show pyLstrip s = _
      rw [← hrest]
      simp
    have hc : isPySpace c = false := by
      have hne : List.dropWhile isPySpace s ≠ [] := by
        rw [hdw]; simp
      have hhead := List.head_dropWhile_not isPySpace s hne
      have : (List.dropWhile isPySpace s).head hne = c := by
        simp [hdw]
      rwa [this] at hhead
    simp [pyLstrip, List.dropWhile_cons, hc]

theorem pyStrip_idem (s : PyStr) : pyStrip (pyStrip s) = pyStrip s := by
  show pyRstrip (pyLstrip (pyStrip s)) = pyStrip s
  rw [pyLstrip_pyStrip]
  show pyRstrip (pyRstrip (pyLstrip s)) = pyStrip s
  rw [pyRstrip_idem]
  rfl

theorem pySortedSet_perm_dedup (l : List PyStr) :
    List.Perm (pySortedSet l) l.dedup :=
  List.perm_insertionSort _ _

theorem pySortedSet_nodup (l : List PyStr) : (pySortedSet l).Nodup :=
  (pySortedSet_perm_dedup l).symm.nodup (List.nodup_dedup l)

theorem pySortedSet_sorted (l : List PyStr) :
    List.Sorted (· < ·) (pySortedSet l) := by
  have hle : List.Sorted (· ≤ ·) (pySortedSet l) := List.sorted_insertionSort _ _
  have hne : List.Pairwise (fun a b : PyStr => a ≠ b) (pySortedSet l) :=
    pySortedSet_nodup l
  exact (List.Pairwise.and hle hne).imp (fun h => lt_of_le_of_ne h.1 h.2)

theorem mem_pySortedSet {x : PyStr} {l : List PyStr} :
    x ∈ pySortedSet l ↔ x ∈ l := by
  rw [(pySortedSet_perm_dedup l).mem_iff, List.mem_dedup]

theorem pyLowerCh_idem (c : Nat) : pyLowerCh (pyLowerCh c) = pyLowerCh c := by
  simp only [pyLowerCh]
  split <;> first | rfl | (split <;> omega)

theorem pyLowerCh_pyUpperCh (c : Nat) : pyLowerCh (pyUpperCh c) = pyLowerCh c := by
  by_cases h : 97 ≤ c ∧ c ≤ 122
  · have hu : pyUpperCh c = c - 32 := by simp [pyUpperCh, h]
    rw [hu]
    simp only [pyLowerCh]
    rw [if_pos (by omega), if_neg (by omega)]
    omega
  · have hu : pyUpperCh c = c := by simp [pyUpperCh, h]
    rw [hu]

theorem pyUpperCh_congr {a b : Nat} (h : pyLowerCh a = pyLowerCh b) :
    pyUpperCh a = pyUpperCh b := by
  simp only [pyLowerCh] at h
  by_cases ha : 65 ≤ a ∧ a ≤ 90
  · rw [if_pos ha] at h
    by_cases hb : 65 ≤ b ∧ b ≤ 90
    · rw [if_pos hb] at h
      have hab : a = b := by omega
      rw [hab]
    · rw [if_neg hb] at h
      simp only [pyUpperCh]
      rw [if_neg (by omega), if_pos (by omega)]
      omega
  · rw [if_neg ha] at h
    by_cases hb : 65 ≤ b ∧ b ≤ 90
    · rw [if_pos hb] at h
      by_cases ha' : 97 ≤ a ∧ a ≤ 122
      · simp only [pyUpperCh]
        rw [if_pos ha', if_neg (by omega)]
        omega
      · simp only [pyUpperCh]
        rw [if_neg ha', if_neg (by omega)]
        omega
    · rw [if_neg hb] at h
      rw [h]

theorem pyLower_pyLower (s : PyStr) : pyLower (pyLower s) = pyLower s := by
  simp only [pyLower, List.map_map]
  exact List.map_congr_left (fun a _ => pyLowerCh_idem a)

theorem pyLower_pyCapitalize (s : PyStr) : pyLower (pyCapitalize s) = pyLower s := by
  cases s with
  | nil => rfl
  | cons c cs =>
    simp only [pyCapitalize, pyLower, List.map_cons, pyLowerCh_pyUpperCh,
      List.map_map, List.cons.injEq, true_and]
    exact List.map_congr_left (fun a _ => pyLowerCh_idem a)

theorem pyCapitalize_congr {a b : PyStr} (h : pyLower a = pyLower b) :
    pyCapitalize a = pyCapitalize b := by
  cases a with
  | nil =>
    cases b with
    | nil => rfl
    | cons c cs => simp [pyLower] at h
  | cons c cs =>
    cases b with
    | nil => simp [pyLower] at h
    | cons d ds =>
      simp only [pyLower, List.map_cons, List.cons.injEq] at h
      simp only [pyCapitalize, List.cons.injEq]
      exact ⟨pyUpperCh_congr h.1, h.2⟩

theorem escoFinalKeywords_sorted (kws : List PyStr) :
    List.Sorted (· < ·) (escoFinalKeywords kws) :=
  pySortedSet_sorted _

theorem escoFinalKeywords_mem_cap {kws : List PyStr} {x : PyStr} (hx : x ∈ kws)
    (ht : pyTruthy (pyStrip x) = true) :
    pyCapitalize x ∈ escoFinalKeywords kws := by
  unfold escoFinalKeywords
  rw [mem_pySortedSet]
  exact List.mem_map_of_mem _ (List.mem_filter.mpr ⟨hx, ht⟩)

theorem mem_escoFinalKeywords_is_cap {kws : List PyStr} {x : PyStr}
    (hx : x ∈ escoFinalKeywords kws) :
    ∃ y, y ∈ kws ∧ pyTruthy (pyStrip y) = true ∧ x = pyCapitalize y := by
  unfold escoFinalKeywords at hx
  rw [mem_pySortedSet] at hx
  obtain ⟨y, hy, hxy⟩ := List.mem_map.mp hx
  obtain ⟨hyk, hyt⟩ := List.mem_filter.mp hy
  exact ⟨y, hyk, hyt, hxy.symm⟩

theorem pyTruthy_pyStrip_ne_nil {y : PyStr} (h : pyTruthy (pyStrip y) = true) :
    y ≠ [] := by
  intro he
  subst he
  simp [pyStrip, pyLstrip, pyRstrip, pyTruthy] at h

theorem escoFinalKeywords_ne_nil {kws : List PyStr} {x : PyStr}
    (hx : x ∈ escoFinalKeywords kws) : x ≠ [] := by
  obtain ⟨y, _, hyt, hcap⟩ := mem_escoFinalKeywords_is_cap hx
  have hy := pyTruthy_pyStrip_ne_nil hyt
  cases y with
  | nil => exact absurd rfl hy
  | cons c cs => subst hcap; simp [pyCapitalize]

theorem escoFinalKeywords_lower_pairwise (kws : List PyStr) :
    List.Pairwise (fun a b => pyLower a ≠ pyLower b) (escoFinalKeywords kws) := by
  have hne : List.Pairwise (fun a b : PyStr => a ≠ b) (escoFinalKeywords kws) :=
    pySortedSet_nodup _
  refine hne.imp_of_mem ?_
  intro a b ha hb hab hlow
  obtain ⟨ya, _, _, hca⟩ := mem_escoFinalKeywords_is_cap ha
  obtain ⟨yb, _, _, hcb⟩ := mem_escoFinalKeywords_is_cap hb
  apply hab
  subst hca hcb
  apply pyCapitalize_congr
  rw [← pyLower_pyCapitalize ya, ← pyLower_pyCapitalize yb]
  exact hlow
theorem isNegativeOperator_iff (op : DomainFilterOperator) :
    isNegativeOperator op = decide (op = .not_equal ∨ op = .not_in) := by
  cases op <;> simp [isNegativeOperator]

theorem collectConditions_eq (fs : List DomainFilter) :
    collectConditions fs =
      ((fs.filter (fun f => !isNegativeOperator f.operator)).map createFieldCondition,
        (fs.filter (fun f => isNegativeOperator f.operator)).map createFieldCondition) := by
  induction fs with
  | nil => rfl
  | cons f fs ih =>
    cases h : isNegativeOperator f.operator <;>
      simp [collectConditions, ih, h, List.filter_cons]

theorem getD_if_isEmpty (l : List FieldCondition) :
    (if l.isEmpty then (none : Option (List FieldCondition)) else some l).getD [] = l := by
  cases l <;> simp

theorem buildSearchFilters_must (filters : List DomainFilter) :
    (buildSearchFilters filters).must.getD [] =
      (filters.filter (fun f => !isNegativeOperator f.operator)).map
        createFieldCondition := by
  unfold buildSearchFilters
  by_cases he : filters.isEmpty
  · have hnil : filters = [] := List.isEmpty_iff.mp he
    subst hnil
    simp
  · simp only [he, Bool.false_eq_true, if_false, collectConditions_eq]
    exact getD_if_isEmpty _

theorem buildSearchFilters_must_not (filters : List DomainFilter) :
    (buildSearchFilters filters).must_not.getD [] =
      (filters.filter (fun f => isNegativeOperator f.operator)).map
        createFieldCondition := by
  unfold buildSearchFilters
  by_cases he : filters.isEmpty
  · have hnil : filters = [] := List.isEmpty_iff.mp he
    subst hnil
    simp
  · simp only [he, Bool.false_eq_true, if_false, collectConditions_eq]
    exact getD_if_isEmpty _

/-! # Claim theorems -/

/-- C5: filter translation partitions by operator — every filter with a
non-negated operator contributes exactly one must condition and every
NEQ/NOT_IN filter exactly one must_not condition, in order; an empty filter
sequence yields a filter with no constraint; and the specification's example
[(a, EQ, 1), (b, NEQ, 2), (c, IN, [3,4])] yields exactly 2 positive and 1
negative condition. -/
theorem C5_filter_partition (filters : List DomainFilter) :
    (buildSearchFilters filters).must.getD [] =
      (filters.filter
        (fun f => !decide (f.operator = .not_equal ∨ f.operator = .not_in))).map
        createFieldCondition ∧
    (buildSearchFilters filters).must_not.getD [] =
      (filters.filter
        (fun f => decide (f.operator = .not_equal ∨ f.operator = .not_in))).map
        createFieldCondition ∧
    buildSearchFilters [] = { must := none, must_not := none } ∧
    ((buildSearchFilters demoFilters).must.getD []).length = 2 ∧
    ((buildSearchFilters demoFilters).must_not.getD []).length = 1 := by
  refine ⟨?_, ?_, rfl, by decide, by decide⟩
  · rw [buildSearchFilters_must]
    congr 1
    exact List.filter_congr (fun f _ => by rw [isNegativeOperator_iff])
  · rw [buildSearchFilters_must_not]
    congr 1
    exact List.filter_congr (fun f _ => by rw [isNegativeOperator_iff])

/-- C6 (code bug evaluation): for a competency whose description is
"Hello." the field-combination strategy emits the segment twice — the
period-stripped copy and the verbatim copy — producing indexed_text
"Hello. Hello." instead of the single stripped segment "Hello". -/
theorem C6_trailing_period_duplicated :
    fieldCombinationExpand [toPyStr "description"] demoCombCompetency =
      [{ demoCombCompetency with indexed_text := some (toPyStr "Hello. Hello.") }] ∧
    toPyStr "Hello. Hello." ≠ toPyStr "Hello" := by
  refine ⟨by decide, by decide⟩

/-- C7 (counterexample): for the appellation "a /" the split yields the two
trimmed parts "a" and "", the left part has the greater word count and the
excess-prefix rule predicts the items ["a", "a "] (prefix "a" joined to the
empty right part); the code instead strips the produced items and returns
["a", "a"]. -/
theorem C7_counterexample :
    pySplit (toPyStr "/") (toPyStr "a /") = [toPyStr "a ", toPyStr ""] ∧
    pyStrip (toPyStr "a ") = toPyStr "a" ∧
    pyStrip (toPyStr "") = toPyStr "" ∧
    (pyWords (toPyStr "a")).length = 1 ∧
    (pyWords (toPyStr "")).length = 0 ∧
    pyJoin (toPyStr " ") (pyWords (toPyStr "a")) ++ toPyStr " " ++ toPyStr "" =
      toPyStr "a " ∧
    cleanRomeAppelation (toPyStr "a /") = [toPyStr "a", toPyStr "a"] ∧
    cleanRomeAppelation (toPyStr "a /") ≠ [toPyStr "a", toPyStr "a "] := by
  refine ⟨by decide, by decide, by decide, by decide, by decide, by decide,
    by decide, by decide⟩

/-- C7 (amended): the ROME appellation splitter agrees everywhere with the
claimed description once the items that receive a joined shared prefix or
suffix are finally stripped of surrounding whitespace (romeSplitClaim);
stripping only matters when one split part is empty. -/
theorem C7_amended_split_rule (s : PyStr) :
    cleanRomeAppelation s = romeSplitClaim s := by
  unfold cleanRomeAppelation romeSplitClaim
  split
  · rfl
  · rcases hsp : pySplit (toPyStr "/") s with _ | ⟨g0, _ | ⟨d0, _ | ⟨x, xs⟩⟩⟩
    · rfl
    · rfl
    · simp only []
      split <;> simp [pyStrip_idem]
    · rfl

/-- C9 (counterexample): constructing the field-combination strategy with
the unrecognized field name "location" succeeds instead of failing with a
configuration error. -/
theorem C9_counterexample :
    fieldCombinationInit [toPyStr "location"] = Except.ok [toPyStr "location"] :=
  rfl

/-- C9 (amended): only the field-duplication strategy validates its field
list at construction time — it succeeds exactly when every requested field
is in {title, description, category, keywords} and raises a configuration
error otherwise; the field-combination constructor accepts any field list
unchecked.  Unrecognized fields are only encountered at expansion time
through getattr: a name that is no Competency attribute contributes no
segment, while an unrecognized attribute name such as "code" does
contribute its value. -/
theorem C9_amended_construction_check (fields : List PyStr) :
    ((∀ f ∈ fields, f ∈ indexingFieldNames) → fieldDuplicationInit fields = .ok fields) ∧
    ((∃ f ∈ fields, f ∉ indexingFieldNames) →
      fieldDuplicationInit fields =
        .error (toPyStr "No extractor defined for field(s)")) ∧
    fieldCombinationInit fields = .ok fields ∧
    (∀ (c : Competency) (f : PyStr), f ∉ competencyAttributeNames →
      fieldCombinationParts c f = []) ∧
    fieldCombinationParts demoCompetency (toPyStr "code") = [toPyStr "C1"] := by
  refine ⟨?_, ?_, rfl, ?_, by decide⟩
  · intro h
    unfold fieldDuplicationInit
    rw [if_pos]
    rw [List.isEmpty_iff, List.filter_eq_nil_iff]
    intro f hf
    simp [h f hf]
  · rintro ⟨f, hf, hnot⟩
    unfold fieldDuplicationInit
    rw [if_neg]
    intro hempty
    rw [List.isEmpty_iff, List.filter_eq_nil_iff] at hempty
    exact hempty f hf (by simpa using hnot)
  · intro c f hnot
    have h1 : f ≠ toPyStr "code" := fun h => hnot (h ▸ by decide)
    have h2 : f ≠ toPyStr "lang" := fun h => hnot (h ▸ by decide)
    have h3 : f ≠ toPyStr "type" := fun h => hnot (h ▸ by decide)
    have h4 : f ≠ toPyStr "provider" := fun h => hnot (h ▸ by decide)
    have h5 : f ≠ toPyStr "title" := fun h => hnot (h ▸ by decide)
    have h6 : f ≠ toPyStr "url" := fun h => hnot (h ▸ by decide)
    have h7 : f ≠ toPyStr "category" := fun h => hnot (h ▸ by decide)
    have h8 : f ≠ toPyStr "description" := fun h => hnot (h ▸ by decide)
    have h9 : f ≠ toPyStr "keywords" := fun h => hnot (h ▸ by decide)
    have h10 : f ≠ toPyStr "indexed_text" := fun h => hnot (h ▸ by decide)
    simp [fieldCombinationParts, h1, h2, h3, h4, h5, h6, h7, h8, h9, h10, pyTruthy]

/-- C9 (witness): the amended statement applied to the concrete field list
["keywords", "bogus"] and to the non-attribute name "bogus". -/
theorem C9_witness :
    fieldDuplicationInit [toPyStr "keywords", toPyStr "bogus"] =
      .error (toPyStr "No extractor defined for field(s)") ∧
    fieldCombinationParts demoCompetency (toPyStr "bogus") = [] := by
  refine ⟨?_, ?_⟩
  · exact (C9_amended_construction_check [toPyStr "keywords", toPyStr "bogus"]).2.1
      ⟨toPyStr "bogus", by decide, by decide⟩
  · exact (C9_amended_construction_check []).2.2.2.1 demoCompetency (toPyStr "bogus")
      (by decide)

/-- C3 (counterexample): a ROME record whose raw keywords are "Zebra" and
"zebra" keeps both — the ROME mapper applies no case normalization, so its
output carries a case-insensitive duplicate. -/
theorem C3_counterexample :
    (romeToCompetency demoRome).keywords = some [toPyStr "Zebra", toPyStr "zebra"] ∧
    pyLower (toPyStr "Zebra") = pyLower (toPyStr "zebra") ∧
    toPyStr "Zebra" ≠ toPyStr "zebra" := by
  refine ⟨by decide, by decide, by decide⟩

/-- C3 (amended): ESCO outputs satisfy the full keyword invariant (strictly
ascending, no empty entries, no case-insensitive duplicates); ROME and
FORMA14 outputs are strictly ascending (hence free of exact duplicates) but
not case-insensitively deduplicated; FORMA capitalizes after sorting and
deduplication, so its output may even be unsorted, as the concrete record
demoForma shows. -/
theorem C3_amended_keyword_invariant (e : EscoMapper) (r : RomeMapper)
    (f : Forma14Mapper) :
    List.Sorted (· < ·) ((escoToCompetency e).keywords.getD []) ∧
    (∀ k ∈ (escoToCompetency e).keywords.getD [], k ≠ []) ∧
    List.Pairwise (fun a b => pyLower a ≠ pyLower b)
      ((escoToCompetency e).keywords.getD []) ∧
    List.Sorted (· < ·) ((romeToCompetency r).keywords.getD []) ∧
    List.Sorted (· < ·) ((forma14ToCompetency f).keywords.getD []) ∧
    (formaToCompetency demoForma).keywords = some [toPyStr "Az", toPyStr "Ab"] ∧
    ¬ List.Sorted (· ≤ ·) [toPyStr "Az", toPyStr "Ab"] := by
  refine ⟨escoFinalKeywords_sorted _, ?_, escoFinalKeywords_lower_pairwise _,
    pySortedSet_sorted _, List.Pairwise.filter _ (pySortedSet_sorted _),
    by decide, by decide⟩
  intro k hk
  exact escoFinalKeywords_ne_nil hk

/-- C3 (witness): the amended invariant applied at the concrete fixtures
demoEsco, demoRome and demoForma14. -/
theorem C3_witness :
    toPyStr "Baker" ≠ [] ∧
    (formaToCompetency demoForma).keywords = some [toPyStr "Az", toPyStr "Ab"] := by
  constructor
  · exact (C3_amended_keyword_invariant demoEsco demoRome demoForma14).2.1
      (toPyStr "Baker") (by decide)
  · exact (C3_amended_keyword_invariant demoEsco demoRome demoForma14).2.2.2.2.2.1

theorem cleanEscoAppelation_length (t : PyStr) :
    (cleanEscoAppelation t).length = 1 ∨ (cleanEscoAppelation t).length = 2 := by
  unfold cleanEscoAppelation
  split
  · left; rfl
  · rcases pySplit (toPyStr "/") t with _ | ⟨p0, _ | ⟨p1, _ | ⟨x, xs⟩⟩⟩
    · left; rfl
    · left; rfl
    · right; rfl
    · left; rfl

theorem escoToCompetency_keywords (m : EscoMapper) :
    (escoToCompetency m).keywords =
      some (escoFinalKeywords
        (if (cleanEscoAppelation (escoCleanedTitle m)).length > 1 then
          escoRawKeywords m ++ cleanEscoAppelation (escoCleanedTitle m)
        else escoRawKeywords m)) := rfl

/-- C8 (counterexample): for the raw title "Baker / PASTRY CHEF" the two
trimmed halves of the title are "Baker" and "PASTRY CHEF", yet the output
keywords are ["Baker", "Pastry chef"]: the mapper splits the cleaned
(capitalized) title and capitalizes the keywords, so neither the raw half
"PASTRY CHEF" nor the cleaned-title half "pastry chef" appears verbatim. -/
theorem C8_counterexample :
    (escoToCompetency demoEsco).keywords =
      some [toPyStr "Baker", toPyStr "Pastry chef"] ∧
    (pySplit (toPyStr "/") (toPyStr "Baker / PASTRY CHEF")).map pyStrip =
      [toPyStr "Baker", toPyStr "PASTRY CHEF"] ∧
    toPyStr "PASTRY CHEF" ∉ [toPyStr "Baker", toPyStr "Pastry chef"] ∧
    toPyStr "pastry chef" ∉ [toPyStr "Baker", toPyStr "Pastry chef"] := by
  refine ⟨by decide, by decide, by decide, by decide⟩

/-- C8 (amended): when the cleaned (stripped and capitalized) ESCO title
splits on "/" into exactly two trimmed halves, the capitalization of every
half that is non-blank is added to the output keywords; when the split does
not yield exactly two parts the keywords equal those computed without the
split rule; the specification's example "Baker / Pastry chef" yields
keywords containing both "Baker" and "Pastry chef". -/
theorem C8_amended_esco_split (m : EscoMapper) :
    ((cleanEscoAppelation (escoCleanedTitle m)).length = 2 →
      ∀ x ∈ cleanEscoAppelation (escoCleanedTitle m), pyTruthy (pyStrip x) = true →
        pyCapitalize x ∈ (escoToCompetency m).keywords.getD []) ∧
    ((cleanEscoAppelation (escoCleanedTitle m)).length ≠ 2 →
      (escoToCompetency m).keywords = some (escoFinalKeywords (escoRawKeywords m))) ∧
    (escoToCompetency demoEscoBaker).keywords =
      some [toPyStr "Baker", toPyStr "Pastry chef"] := by
  refine ⟨?_, ?_, by decide⟩
  · intro hlen x hx ht
    rw [escoToCompetency_keywords, Option.getD_some, if_pos (by omega)]
    exact escoFinalKeywords_mem_cap (List.mem_append_right _ hx) ht
  · intro hlen
    rcases cleanEscoAppelation_length (escoCleanedTitle m) with h1 | h2
    · rw [escoToCompetency_keywords, if_neg (by omega)]
    · exact absurd h2 hlen

/-- C8 (witness): the amended statement applied to demoEsco with the half
"pastry chef" of its cleaned title. -/
theorem C8_witness :
    pyCapitalize (toPyStr "pastry chef") ∈
      (escoToCompetency demoEsco).keywords.getD [] :=
  (C8_amended_esco_split demoEsco).1 (by decide) (toPyStr "pastry chef")
    (by decide) (by decide)

theorem searchTypeSparse_ne_semantic : searchTypeSparse ≠ searchTypeSemantic := by
  decide

theorem searchTypeHybrid_ne_semantic : searchTypeHybrid ≠ searchTypeSemantic := by
  decide

theorem searchTypeHybrid_ne_sparse : searchTypeHybrid ≠ searchTypeSparse := by
  decide

/-- C1: search dispatch — an empty trimmed text raises ValidationError
before any collaborator call; SEMANTIC invokes only the dense encoder and
the single-vector search with vector_name dense; SPARSE symmetrically with
the sparse encoder; HYBRID invokes both encoders once each and the hybrid
repository method once; any other search_type raises ValidationError with
no collaborator call; encoder failures surface as EmbeddingError after
exactly the encoder calls made so far. -/
theorem C1_search_dispatch (env : SvcEnv) (text : PyStr)
    (filters : List DomainFilter) (top : Nat) :
    (pyTruthy (pyStrip text) = false → ∀ st,
      search_by_text_and_filters_with_type env text filters top st =
        (.validationError (toPyStr "Searched text cannot be empty."), [])) ∧
    (pyTruthy (pyStrip text) = true →
      (∀ dv, env.encodeDense (pyStrip text) = .ok dv →
        search_by_text_and_filters_with_type env text filters top searchTypeSemantic =
          (.ok (env.repoSearchVector (.dense dv) filters top .dense),
            [.encodeDense (pyStrip text),
              .repoSearchVector (.dense dv) filters top .dense])) ∧
      (∀ e, env.encodeDense (pyStrip text) = .error e →
        search_by_text_and_filters_with_type env text filters top searchTypeSemantic =
          (.embeddingError (toPyStr "Dense encoding error: " ++ e),
            [.encodeDense (pyStrip text)])) ∧
      (∀ sv, env.encodeSparse (pyStrip text) = .ok sv →
        search_by_text_and_filters_with_type env text filters top searchTypeSparse =
          (.ok (env.repoSearchVector (.sparse sv) filters top .sparse),
            [.encodeSparse (pyStrip text),
              .repoSearchVector (.sparse sv) filters top .sparse])) ∧
      (∀ e, env.encodeSparse (pyStrip text) = .error e →
        search_by_text_and_filters_with_type env text filters top searchTypeSparse =
          (.embeddingError (toPyStr "Sparse encoding error: " ++ e),
            [.encodeSparse (pyStrip text)])) ∧
      (∀ dv sv, env.encodeDense (pyStrip text) = .ok dv →
        env.encodeSparse (pyStrip text) = .ok sv →
        search_by_text_and_filters_with_type env text filters top searchTypeHybrid =
          (.ok (env.repoSearchHybrid dv sv filters top),
            [.encodeDense (pyStrip text), .encodeSparse (pyStrip text),
              .repoSearchHybrid dv sv filters top])) ∧
      (∀ e, env.encodeDense (pyStrip text) = .error e →
        search_by_text_and_filters_with_type env text filters top searchTypeHybrid =
          (.embeddingError (toPyStr "Encoding error: " ++ e),
            [.encodeDense (pyStrip text)])) ∧
      (∀ dv e, env.encodeDense (pyStrip text) = .ok dv →
        env.encodeSparse (pyStrip text) = .error e →
        search_by_text_and_filters_with_type env text filters top searchTypeHybrid =
          (.embeddingError (toPyStr "Encoding error: " ++ e),
            [.encodeDense (pyStrip text), .encodeSparse (pyStrip text)])) ∧
      (∀ st, st ≠ searchTypeSemantic → st ≠ searchTypeSparse →
        st ≠ searchTypeHybrid →
        search_by_text_and_filters_with_type env text filters top st =
          (.validationError (toPyStr "Unsupported search type"), []))) := by
  constructor
  · intro h st
    simp [search_by_text_and_filters_with_type, h]
  · intro h
    refine ⟨?_, ?_, ?_, ?_, ?_, ?_, ?_, ?_⟩
    · intro dv hd
      simp [search_by_text_and_filters_with_type, h, hd]
    · intro e hd
      simp [search_by_text_and_filters_with_type, h, hd]
    · intro sv hs
      simp [search_by_text_and_filters_with_type, h, hs,
        searchTypeSparse_ne_semantic]
    · intro e hs
      simp [search_by_text_and_filters_with_type, h, hs,
        searchTypeSparse_ne_semantic]
    · intro dv sv hd hs
      simp [search_by_text_and_filters_with_type, h, hd, hs,
        searchTypeHybrid_ne_semantic, searchTypeHybrid_ne_sparse]
    · intro e hd
      simp [search_by_text_and_filters_with_type, h, hd,
        searchTypeHybrid_ne_semantic, searchTypeHybrid_ne_sparse]
    · intro dv e hd hs
      simp [search_by_text_and_filters_with_type, h, hd, hs,
        searchTypeHybrid_ne_semantic, searchTypeHybrid_ne_sparse]
    · intro st h1 h2 h3
      simp [search_by_text_and_filters_with_type, h, h1, h2, h3]

/-- C1 (witness): semantic search on demoEnv with text " hi ". -/
theorem C1_witness :
    search_by_text_and_filters_with_type demoEnv (toPyStr " hi ") [] 10
        searchTypeSemantic =
      (.ok (demoEnv.repoSearchVector (.dense { values := [1] }) [] 10 .dense),
        [.encodeDense (pyStrip (toPyStr " hi ")),
          .repoSearchVector (.dense { values := [1] }) [] 10 .dense]) :=
  ((C1_search_dispatch demoEnv (toPyStr " hi ") [] 10).2 (by decide)).1
    { values := [1] } rfl

/-- C4: create_entity raises ValidationError on absent, empty or
whitespace-only text with no collaborator call; on a dense-encoder failure
it raises EmbeddingError having called only the dense encoder (no store
write); on a sparse-encoder failure it raises EmbeddingError having called
both encoders and still no store write; and when both encodings succeed it
calls repository create exactly once with the competency and both vectors
and returns its result. -/
theorem C4_create_entity (env : SvcEnv) (competency : Competency) :
    (create_entity env competency none =
      (.validationError (toPyStr "Text cannot be empty."), [])) ∧
    (∀ t, pyTruthy t = false →
      create_entity env competency (some t) =
        (.validationError (toPyStr "Text cannot be empty."), [])) ∧
    (∀ t, pyTruthy t = true → pyTruthy (pyStrip t) = false →
      create_entity env competency (some t) =
        (.validationError (toPyStr "Text cannot be empty."), [])) ∧
    (∀ t e, pyTruthy t = true → pyTruthy (pyStrip t) = true →
      env.encodeDense (pyStrip t) = .error e →
      create_entity env competency (some t) =
        (.embeddingError (toPyStr "Encoding error: " ++ e),
          [.encodeDense (pyStrip t)])) ∧
    (∀ t dv e, pyTruthy t = true → pyTruthy (pyStrip t) = true →
      env.encodeDense (pyStrip t) = .ok dv →
      env.encodeSparse (pyStrip t) = .error e →
      create_entity env competency (some t) =
        (.embeddingError (toPyStr "Encoding error: " ++ e),
          [.encodeDense (pyStrip t), .encodeSparse (pyStrip t)])) ∧
    (∀ t dv sv, pyTruthy t = true → pyTruthy (pyStrip t) = true →
      env.encodeDense (pyStrip t) = .ok dv →
      env.encodeSparse (pyStrip t) = .ok sv →
      create_entity env competency (some t) =
        (.ok (env.repoCreate competency dv sv),
          [.encodeDense (pyStrip t), .encodeSparse (pyStrip t),
            .repoCreate competency dv sv])) := by
  refine ⟨rfl, ?_, ?_, ?_, ?_, ?_⟩
  · intro t ht
    simp [create_entity, ht]
  · intro t ht hst
    simp [create_entity, ht, hst]
  · intro t e ht hst hd
    simp [create_entity, ht, hst, hd]
  · intro t dv e ht hst hd hs
    simp [create_entity, ht, hst, hd, hs]
  · intro t dv sv ht hst hd hs
    simp [create_entity, ht, hst, hd, hs]

/-- C4 (witness): creation on demoEnv with text " bake bread ". -/
theorem C4_witness :
    create_entity demoEnv demoCompetency (some (toPyStr " bake bread ")) =
      (.ok (demoEnv.repoCreate demoCompetency { values := [1] }
          { indices := [0], values := [2] }),
        [.encodeDense (pyStrip (toPyStr " bake bread ")),
          .encodeSparse (pyStrip (toPyStr " bake bread ")),
          .repoCreate demoCompetency { values := [1] }
            { indices := [0], values := [2] }]) :=
  (C4_create_entity demoEnv demoCompetency).2.2.2.2.2 (toPyStr " bake bread ")
    { values := [1] } { indices := [0], values := [2] } (by decide) (by decide)
    rfl rfl

/-- C2: update_entity raises EntityNotFoundError when the identifier has no
stored entity; with text None or text equal to the stored indexed_text it
calls no encoder and updates with the entity's existing vectors unchanged;
otherwise it trims, raises ValidationError on blank text, re-encodes with
both capabilities (surfacing failures as EmbeddingError) and updates with
the freshly encoded vectors. -/
theorem C2_update_entity (env : SvcEnv) (identifier : Nat)
    (competency : Competency) :
    (env.repoGet identifier = none → ∀ text,
      update_entity env identifier competency text =
        (.entityNotFoundError (toPyStr "Entity not found"), [.repoGet identifier])) ∧
    (∀ entity, env.repoGet identifier = some entity →
      update_entity env identifier competency none =
        (.ok (env.repoUpdate identifier competency entity.dense_vector
            entity.sparse_vector),
          [.repoGet identifier,
            .repoUpdate identifier competency entity.dense_vector
              entity.sparse_vector])) ∧
    (∀ entity t, env.repoGet identifier = some entity →
      entity.competency.indexed_text = some t →
      update_entity env identifier competency (some t) =
        (.ok (env.repoUpdate identifier competency entity.dense_vector
            entity.sparse_vector),
          [.repoGet identifier,
            .repoUpdate identifier competency entity.dense_vector
              entity.sparse_vector])) ∧
    (∀ entity t, env.repoGet identifier = some entity →
      entity.competency.indexed_text ≠ some t →
      pyTruthy (pyStrip t) = false →
      update_entity env identifier competency (some t) =
        (.validationError (toPyStr "Text cannot be empty."), [.repoGet identifier])) ∧
    (∀ entity t e, env.repoGet identifier = some entity →
      entity.competency.indexed_text ≠ some t →
      pyTruthy (pyStrip t) = true →
      env.encodeDense (pyStrip t) = .error e →
      update_entity env identifier competency (some t) =
        (.embeddingError (toPyStr "Encoding error: " ++ e),
          [.repoGet identifier, .encodeDense (pyStrip t)])) ∧
    (∀ entity t dv e, env.repoGet identifier = some entity →
      entity.competency.indexed_text ≠ some t →
      pyTruthy (pyStrip t) = true →
      env.encodeDense (pyStrip t) = .ok dv →
      env.encodeSparse (pyStrip t) = .error e →
      update_entity env identifier competency (some t) =
        (.embeddingError (toPyStr "Encoding error: " ++ e),
          [.repoGet identifier, .encodeDense (pyStrip t),
            .encodeSparse (pyStrip t)])) ∧
    (∀ entity t dv sv, env.repoGet identifier = some entity →
      entity.competency.indexed_text ≠ some t →
      pyTruthy (pyStrip t) = true →
      env.encodeDense (pyStrip t) = .ok dv →
      env.encodeSparse (pyStrip t) = .ok sv →
      update_entity env identifier competency (some t) =
        (.ok (env.repoUpdate identifier competency (some dv) (some sv)),
          [.repoGet identifier, .encodeDense (pyStrip t),
            .encodeSparse (pyStrip t),
            .repoUpdate identifier competency (some dv) (some sv)])) := by
  refine ⟨?_, ?_, ?_, ?_, ?_, ?_, ?_⟩
  · intro hget text
    simp [update_entity, hget]
  · intro entity hget
    simp [update_entity, hget]
  · intro entity t hget hidx
    simp [update_entity, hget, hidx]
  · intro entity t hget hidx hst
    simp [update_entity, hget, hidx, hst]
  · intro entity t e hget hidx hst hd
    simp [update_entity, hget, hidx, hst, hd]
  · intro entity t dv e hget hidx hst hd hs
    simp [update_entity, hget, hidx, hst, hd, hs]
  · intro entity t dv sv hget hidx hst hd hs
    simp [update_entity, hget, hidx, hst, hd, hs]

/-- C2 (witness): the reuse path on demoEnv — updating entity 7 with the
very text stored as its indexed_text makes no encoder call and reuses the
stored vectors. -/
theorem C2_witness :
    update_entity demoEnv 7 demoCompetency (some (toPyStr "stored text")) =
      (.ok (demoEnv.repoUpdate 7 demoCompetency demoEntity.dense_vector
          demoEntity.sparse_vector),
        [.repoGet 7,
          .repoUpdate 7 demoCompetency demoEntity.dense_vector
            demoEntity.sparse_vector]) :=
  (C2_update_entity demoEnv 7 demoCompetency).2.2.1 demoEntity
    (toPyStr "stored text") rfl rfl

/-- C10: the reuse comparison is exact string equality against the stored
indexed_text, performed before trimming — a text that differs from the
stored indexed text only by surrounding whitespace (equal trimmed cores,
distinct strings, non-blank core) is re-encoded: both embedding
capabilities run on the trimmed text and the repository update receives the
freshly encoded vectors, not the stored ones. -/
theorem C10_exact_reuse_comparison (env : SvcEnv) (identifier : Nat)
    (competency : Competency) (entity : Entity) (t s : PyStr)
    (dv : DenseVector) (sv : SparseVector)
    (hget : env.repoGet identifier = some entity)
    (hidx : entity.competency.indexed_text = some s)
    (hne : t ≠ s)
    (hstrip : pyStrip t = pyStrip s)
    (htruthy : pyTruthy (pyStrip t) = true)
    (hd : env.encodeDense (pyStrip t) = .ok dv)
    (hs : env.encodeSparse (pyStrip t) = .ok sv) :
    update_entity env identifier competency (some t) =
      (.ok (env.repoUpdate identifier competency (some dv) (some sv)),
        [.repoGet identifier, .encodeDense (pyStrip t),
          .encodeSparse (pyStrip t),
          .repoUpdate identifier competency (some dv) (some sv)]) := by
  have hidxne : entity.competency.indexed_text ≠ some t := by
    rw [hidx]
    intro hcontra
    exact hne (Option.some.injEq .. ▸ hcontra).symm
  simp [update_entity, hget, hidxne, htruthy, hd, hs]

/-- C10 (witness): updating entity 7 of demoEnv with " stored text " (the
stored indexed text surrounded by spaces) re-encodes and stores the fresh
vectors. -/
theorem C10_witness :
    update_entity demoEnv 7 demoCompetency (some (toPyStr " stored text ")) =
      (.ok (demoEnv.repoUpdate 7 demoCompetency (some { values := [1] })
          (some { indices := [0], values := [2] })),
        [.repoGet 7, .encodeDense (pyStrip (toPyStr " stored text ")),
          .encodeSparse (pyStrip (toPyStr " stored text ")),
          .repoUpdate 7 demoCompetency (some { values := [1] })
            (some { indices := [0], values := [2] })]) :=
  C10_exact_reuse_comparison demoEnv 7 demoCompetency demoEntity
    (toPyStr " stored text ") (toPyStr "stored text") { values := [1] }
    { indices := [0], values := [2] } rfl rfl (by decide) (by decide) (by decide)
    rfl rfl

